import Mathlib

/-!
Verification of the kfs-ultimate display/input kernel (src/src/kernel.c,
src/src/k_lib.c) against its specification.

The C globals `terminal_row`, `terminal_column`, `terminal_color` and the
VGA memory pointed to by `terminal_buffer` are gathered into one state
record `TermState`; every C routine becomes a pure state transformer.
Machine bytes are `Nat` with `% 256` at the points where C performs an
integral conversion, and the 16-bit VGA cells are `Nat` with `% 65536`.
-/

set_option maxHeartbeats 1000000

/-- Embedding of `VGA_WIDTH` (kernel.c line 6). -/
def VGA_WIDTH : Nat := 80

/-- Embedding of `VGA_HEIGHT` (kernel.c line 7). -/
def VGA_HEIGHT : Nat := 25

/-- Embedding of `SCREEN_CELLS = VGA_WIDTH * VGA_HEIGHT` (kernel.c line 10). -/
def SCREEN_CELLS : Nat := VGA_WIDTH * VGA_HEIGHT

/-- Embedding of `TAB_COUNT` (kernel.c line 9). -/
def TAB_COUNT : Nat := 9

/-- Embedding of `enum vga_color` member `VGA_COLOR_BLACK`. -/
def VGA_COLOR_BLACK : Nat := 0

/-- Embedding of `enum vga_color` member `VGA_COLOR_WHITE`. -/
def VGA_COLOR_WHITE : Nat := 15

/-- Embedding of `vga_entry_color(fg, bg) = fg | bg << 4`; the `uint8_t`
return type truncates mod 256. -/
def vga_entry_color (fg bg : Nat) : Nat :=
  (fg ||| (bg <<< 4)) % 256

/-- Embedding of `vga_entry(uc, color) = (uint16_t) uc | (uint16_t) color << 8`;
the parameters are `unsigned char` and `uint8_t` (hence `% 256`) and the
`uint16_t` return type truncates mod 65536. -/
def vga_entry (uc color : Nat) : Nat :=
  ((uc % 256) ||| ((color % 256) <<< 8)) % 65536

/-- The kernel's terminal state: the C globals `terminal_row`,
`terminal_column`, `terminal_color` and the VGA cell array reached through
`terminal_buffer`, as one record. -/
structure TermState where
  terminal_row : Nat
  terminal_column : Nat
  terminal_color : Nat
  terminal_buffer : List Nat
  deriving DecidableEq, Inhabited

/-- Embedding of `terminal_setcolor(color)`: `terminal_color = color;`
(the global is `uint8_t`, hence `% 256`). -/
def terminal_setcolor (s : TermState) (color : Nat) : TermState :=
  { s with terminal_color := color % 256 }

/-- Embedding of `terminal_putentryat(c, color, x, y)`:
`terminal_buffer[y * VGA_WIDTH + x] = vga_entry(c, color);`. -/
def terminal_putentryat (s : TermState) (c color x y : Nat) : TermState :=
  { s with terminal_buffer :=
      s.terminal_buffer.set (y * VGA_WIDTH + x) (vga_entry c color) }

/-- Embedding of `terminal_putchar(c)`: write the entry at the cursor, then
`if (++terminal_column == VGA_WIDTH) { terminal_column = 0;
if (++terminal_row == VGA_HEIGHT) terminal_row = 0; }`. -/
def terminal_putchar (s : TermState) (c : Nat) : TermState :=
  let s1 := terminal_putentryat s c s.terminal_color s.terminal_column s.terminal_row
  if s1.terminal_column + 1 = VGA_WIDTH then
    if s1.terminal_row + 1 = VGA_HEIGHT then
      { s1 with terminal_column := 0, terminal_row := 0 }
    else
      { s1 with terminal_column := 0, terminal_row := s1.terminal_row + 1 }
  else
    { s1 with terminal_column := s1.terminal_column + 1 }

/-- Embedding of `terminal_write(data, size)`: the loop
`for (i = 0; i < size; i++) terminal_putchar(data[i]);`, with the C read
`data[i]` rendered as `data.getD i 0` (meaningful when `i < data.length`). -/
def terminal_write (s : TermState) (data : List Nat) (size : Nat) : TermState :=
  (List.range size).foldl (fun st i => terminal_putchar st (data.getD i 0)) s

/-- Embedding of `strlen` from k_lib.c: counts the bytes before the first
NUL terminator. -/
def strlen (str : List Nat) : Nat :=
  (str.takeWhile (fun b => b ≠ 0)).length

/-- Embedding of `terminal_writestring(data)`:
`terminal_write(data, k_strlen(data));`. -/
def terminal_writestring (s : TermState) (data : List Nat) : TermState :=
  terminal_write s data (strlen data)

/-- The double loop shared by `terminal_init` and `terminal_clear`: for every
`y < VGA_HEIGHT` and `x < VGA_WIDTH`, store `v` at index `y * VGA_WIDTH + x`. -/
def fillCells (buf : List Nat) (v : Nat) : List Nat :=
  (List.range VGA_HEIGHT).foldl
    (fun b y =>
      (List.range VGA_WIDTH).foldl (fun b2 x => b2.set (y * VGA_WIDTH + x) v) b)
    buf

/-- Embedding of `terminal_init()`: cursor to (0,0), default white-on-black
color, every cell set to a blank under that color.  The pre-existing VGA
memory contents are the incoming state's buffer. -/
def terminal_init (s : TermState) : TermState :=
  let color := vga_entry_color VGA_COLOR_WHITE VGA_COLOR_BLACK
  { terminal_row := 0
    terminal_column := 0
    terminal_color := color
    terminal_buffer := fillCells s.terminal_buffer (vga_entry 32 color) }

/-- Embedding of `terminal_clear()`: every cell set to a blank under the
current color, then cursor to (0,0). -/
def terminal_clear (s : TermState) : TermState :=
  { s with
    terminal_buffer := fillCells s.terminal_buffer (vga_entry 32 s.terminal_color)
    terminal_row := 0
    terminal_column := 0 }

/-- Embedding of `terminal_setpos(x, y)`:
`terminal_column = x; terminal_row = y;`. -/
def terminal_setpos (s : TermState) (x y : Nat) : TermState :=
  { s with terminal_column := x, terminal_row := y }

/-- Embedding of `terminal_writestring_at(str, x, y)`:
`terminal_setpos(x, y); terminal_writestring(str);`. -/
def terminal_writestring_at (s : TermState) (str : List Nat) (x y : Nat) : TermState :=
  terminal_writestring (terminal_setpos s x y) str

/-- Embedding of `unsigned char keyboard_map[128]` (kernel.c).  The C
initializer lists 90 values for indices 0 to 89 (the negative F-key
sentinels -1 .. -9 become 255 .. 247 when stored as `unsigned char`); the
remaining 38 array slots are zero-initialized. -/
def keyboard_map : List Nat :=
  [0, 27, 49, 50, 51, 52, 53, 54, 55, 56,
   57, 48, 45, 61, 8,
   9,
   113, 119, 101, 114,
   116, 121, 117, 105, 111, 112, 91, 93, 10,
   0,
   97, 115, 100, 102, 103, 104, 106, 107, 108, 59,
   39, 96, 0,
   92, 122, 120, 99, 118, 98, 110,
   109, 44, 46, 47, 0,
   42,
   0,
   32,
   0,
   255,
   254, 253, 252, 251, 250, 249, 248, 247,
   0,
   0,
   0,
   0,
   0,
   0,
   45,
   0,
   0,
   0,
   43,
   0,
   0,
   0,
   0,
   0,
   0, 0, 0,
   0,
   0,
   0] ++ List.replicate 38 0

/-- Embedding of `handle_keyboard()`: the hardware status bit and the scan
code read from the data port become parameters; on data ready, a scan code
whose bit 7 is clear is looked up in `keyboard_map` and forwarded to
`terminal_putchar` (the C code performs no sentinel filtering). -/
def handle_keyboard (s : TermState) (hasData : Bool) (scancode : Nat) : TermState :=
  if hasData then
    if scancode &&& 128 = 0 then
      terminal_putchar s (keyboard_map.getD scancode 0)
    else s
  else s

/-- The Tab Manager state: the C array `static t_tab tabs[TAB_COUNT]` and
`static int current_tab`, plus the Video Sink (the physical VGA cell
array) as its own component.  Each `t_tab` carries the same fields as
`TermState`, so tabs are represented as `TermState` values. -/
structure TabState where
  tabs : List TermState
  current_tab : Nat
  sink : List Nat
  deriving DecidableEq, Inhabited

/-- Modelled from the spec: `switch_to(index)` of the Tab Manager is absent
from src (only the `tabs` array and `current_tab` are declared), so it is
taken from the spec's words: set `active = index`, then perform a full
repaint, writing every cell of the newly active buffer's grid to the Video
Sink in row-major order; no other buffer is touched. -/
def switch_to (ts : TabState) (index : Nat) : TabState :=
  { ts with
    current_tab := index
    sink := (ts.tabs.getD index default).terminal_buffer }

/-- Modelled from the spec: writing through the Tab Manager is absent from
src, so it is taken from the spec's words: every Terminal Buffer operation
invoked through the Tab Manager applies to the active buffer only (here,
`put_char` for each byte in order), and the Video Sink always reflects the
active buffer's grid. -/
def tabs_write (ts : TabState) (data : List Nat) : TabState :=
  let t := data.foldl terminal_putchar (ts.tabs.getD ts.current_tab default)
  { ts with
    tabs := ts.tabs.set ts.current_tab t
    sink := t.terminal_buffer }

/-- The cursor-bounds invariant of the Terminal Buffer. -/
def cursorInBounds (s : TermState) : Prop :=
  s.terminal_column < VGA_WIDTH ∧ s.terminal_row < VGA_HEIGHT

instance (s : TermState) : Decidable (cursorInBounds s) :=
  inferInstanceAs (Decidable (_ ∧ _))

/-! ### Helper lemmas on `terminal_putchar` -/

theorem putchar_column_eq (s : TermState) (c : Nat) :
    (terminal_putchar s c).terminal_column =
      if s.terminal_column + 1 = VGA_WIDTH then 0 else s.terminal_column + 1 := by
  simp only [terminal_putchar, terminal_putentryat]
  split
  · split <;> rfl
  · rfl

theorem putchar_row_eq (s : TermState) (c : Nat) :
    (terminal_putchar s c).terminal_row =
      if s.terminal_column + 1 = VGA_WIDTH then
        (if s.terminal_row + 1 = VGA_HEIGHT then 0 else s.terminal_row + 1)
      else s.terminal_row := by
  simp only [terminal_putchar, terminal_putentryat]
  split
  · split <;> rfl
  · rfl

theorem putchar_color_eq (s : TermState) (c : Nat) :
    (terminal_putchar s c).terminal_color = s.terminal_color := by
  simp only [terminal_putchar, terminal_putentryat]
  split
  · split <;> rfl
  · rfl

theorem putchar_buffer_eq (s : TermState) (c : Nat) :
    (terminal_putchar s c).terminal_buffer =
      s.terminal_buffer.set (s.terminal_row * VGA_WIDTH + s.terminal_column)
        (vga_entry c s.terminal_color) := by
  simp only [terminal_putchar, terminal_putentryat]
  split
  · split <;> rfl
  · rfl

theorem putchar_idx (s : TermState) (c : Nat)
    (hc : s.terminal_column < 80) (hr : s.terminal_row < 25) :
    (terminal_putchar s c).terminal_column < 80 ∧
    (terminal_putchar s c).terminal_row < 25 ∧
    (terminal_putchar s c).terminal_row * 80 + (terminal_putchar s c).terminal_column
      = (s.terminal_row * 80 + s.terminal_column + 1) % 2000 := by
  rw [putchar_column_eq, putchar_row_eq]
  simp only [VGA_WIDTH, VGA_HEIGHT]
  split
  · split
    · exact ⟨by omega, by omega, by omega⟩
    · exact ⟨by omega, by omega, by omega⟩
  · exact ⟨by omega, by omega, by omega⟩

theorem foldl_putchar_cursor {α : Type} (g : α → Nat) (l : List α) (s : TermState)
    (hc : s.terminal_column < 80) (hr : s.terminal_row < 25) :
    (l.foldl (fun st a => terminal_putchar st (g a)) s).terminal_column < 80 ∧
    (l.foldl (fun st a => terminal_putchar st (g a)) s).terminal_row < 25 ∧
    (l.foldl (fun st a => terminal_putchar st (g a)) s).terminal_row * 80 +
      (l.foldl (fun st a => terminal_putchar st (g a)) s).terminal_column
      = (s.terminal_row * 80 + s.terminal_column + l.length) % 2000 := by
  induction l generalizing s with
  | nil =>
    refine ⟨hc, hr, ?_⟩
    simp only [List.foldl_nil, List.length_nil, Nat.add_zero]
    omega
  | cons a t ih =>
    simp only [List.foldl_cons, List.length_cons]
    obtain ⟨h1, h2, h3⟩ := putchar_idx s (g a) hc hr
    obtain ⟨k1, k2, k3⟩ := ih (terminal_putchar s (g a)) h1 h2
    refine ⟨k1, k2, ?_⟩
    rw [k3, h3]
    omega

/-! ### Claim C3: wrap law -/

/-- Claim C3: starting from cursor (0,0), calling `put_char` exactly
`width*height = 2000` times returns the cursor to (0,0); each call advances
the cursor one position in row-major circular order. -/
theorem C3_wrap_law (cs : List Nat) (s : TermState)
    (hlen : cs.length = 2000)
    (hc : s.terminal_column = 0) (hr : s.terminal_row = 0) :
    (cs.foldl terminal_putchar s).terminal_column = 0 ∧
    (cs.foldl terminal_putchar s).terminal_row = 0 := by
  obtain ⟨h1, h2, h3⟩ := foldl_putchar_cursor (fun c : Nat => c) cs s (by omega) (by omega)
  have h1a : (cs.foldl terminal_putchar s).terminal_column < 80 := h1
  have h2a : (cs.foldl terminal_putchar s).terminal_row < 25 := h2
  have h3a : (cs.foldl terminal_putchar s).terminal_row * 80 +
      (cs.foldl terminal_putchar s).terminal_column
      = (s.terminal_row * 80 + s.terminal_column + cs.length) % 2000 := h3
  rw [hc, hr, hlen] at h3a
  constructor <;> omega

/-- Witness for C3 at a concrete input: 2000 copies of the byte 65 written
from a state with the cursor at (0,0). -/
theorem C3_wrap_law_witness :
    (List.replicate 2000 65).length = 2000 ∧
    (((List.replicate 2000 65).foldl terminal_putchar ⟨0, 0, 7, []⟩).terminal_column = 0 ∧
     ((List.replicate 2000 65).foldl terminal_putchar ⟨0, 0, 7, []⟩).terminal_row = 0) :=
  ⟨List.length_replicate 2000 65,
   C3_wrap_law (List.replicate 2000 65) ⟨0, 0, 7, []⟩ (List.length_replicate 2000 65) rfl rfl⟩

/-! ### Claim C4: cursor-bounds invariant -/

/-- Claim C4: the invariant `0 ≤ column < width ∧ 0 ≤ row < height` is
established by `init` and preserved by every Terminal Buffer operation
(`put_char`, `write`, `write_string`, `clear`, `set_pos` with in-bounds
precondition, `put_char_at`, `set_color`). -/
theorem C4_cursor_invariant :
    (∀ s, cursorInBounds (terminal_init s))
    ∧ (∀ s c, cursorInBounds s → cursorInBounds (terminal_putchar s c))
    ∧ (∀ s data size, cursorInBounds s → cursorInBounds (terminal_write s data size))
    ∧ (∀ s data, cursorInBounds s → cursorInBounds (terminal_writestring s data))
    ∧ (∀ s, cursorInBounds (terminal_clear s))
    ∧ (∀ s x y, x < VGA_WIDTH → y < VGA_HEIGHT → cursorInBounds (terminal_setpos s x y))
    ∧ (∀ s c color x y, cursorInBounds s → cursorInBounds (terminal_putentryat s c color x y))
    ∧ (∀ s color, cursorInBounds s → cursorInBounds (terminal_setcolor s color)) := by
  refine ⟨?_, ?_, ?_, ?_, ?_, ?_, ?_, ?_⟩
  · intro s
    have h1 : (terminal_init s).terminal_column = 0 := rfl
    have h2 : (terminal_init s).terminal_row = 0 := rfl
    refine ⟨?_, ?_⟩
    · rw [h1]; decide
    · rw [h2]; decide
  · intro s c h
    obtain ⟨h1, h2, _⟩ := putchar_idx s c h.1 h.2
    exact ⟨h1, h2⟩
  · intro s data size h
    obtain ⟨h1, h2, _⟩ :=
      foldl_putchar_cursor (fun i => data.getD i 0) (List.range size) s h.1 h.2
    exact ⟨h1, h2⟩
  · intro s data h
    obtain ⟨h1, h2, _⟩ :=
      foldl_putchar_cursor (fun i => data.getD i 0) (List.range (strlen data)) s h.1 h.2
    exact ⟨h1, h2⟩
  · intro s
    have h1 : (terminal_clear s).terminal_column = 0 := rfl
    have h2 : (terminal_clear s).terminal_row = 0 := rfl
    refine ⟨?_, ?_⟩
    · rw [h1]; decide
    · rw [h2]; decide
  · intro s x y hx hy
    exact ⟨hx, hy⟩
  · intro s c color x y h
    exact ⟨h.1, h.2⟩
  · intro s color h
    exact ⟨h.1, h.2⟩

/-- Witness for C4 at a concrete input: `set_pos` to the in-bounds
coordinate (3,4). -/
theorem C4_cursor_invariant_witness :
    (3 < VGA_WIDTH ∧ 4 < VGA_HEIGHT) ∧ cursorInBounds (terminal_setpos ⟨0, 0, 7, []⟩ 3 4) :=
  ⟨⟨by decide, by decide⟩,
   C4_cursor_invariant.2.2.2.2.2.1 ⟨0, 0, 7, []⟩ 3 4 (by decide) (by decide)⟩

/-! ### Claim C5: cell layout -/

theorem shift_or_eq_add (x y k : Nat) (hy : y < 2 ^ k) :
    (x <<< k) ||| y = 2 ^ k * x + y := by
  rw [Nat.shiftLeft_eq, Nat.mul_comm]
  exact (Nat.mul_add_lt_is_or hy x).symm

theorem vga_entry_eq_arith (c a : Nat) (hc : c < 256) (ha : a < 256) :
    vga_entry c a = 256 * a + c := by
  have h8 : (2 : Nat) ^ 8 = 256 := by norm_num
  unfold vga_entry
  rw [Nat.mod_eq_of_lt hc, Nat.mod_eq_of_lt ha, Nat.lor_comm,
    shift_or_eq_add a c 8 (by omega), h8]
  exact Nat.mod_eq_of_lt (by omega)

theorem vga_entry_color_eq_arith (fg bg : Nat) (hfg : fg < 16) (hbg : bg < 16) :
    vga_entry_color fg bg = 16 * bg + fg := by
  have h4 : (2 : Nat) ^ 4 = 16 := by norm_num
  unfold vga_entry_color
  rw [Nat.lor_comm, shift_or_eq_add bg fg 4 (by omega), h4]
  exact Nat.mod_eq_of_lt (by omega)

/-- Claim C5: the packed 16-bit cell has the character in its low byte and
the attribute in its high byte; an attribute built from 4-bit `fg` and `bg`
equals `(bg << 4) | fg`; the grid is a linear row-major array of
`80 * 25 = 2000` 16-bit cells. -/
theorem C5_cell_layout (c a fg bg : Nat)
    (hc : c < 256) (ha : a < 256) (hfg : fg < 16) (hbg : bg < 16) :
    vga_entry c a % 256 = c ∧
    vga_entry c a / 256 = a ∧
    vga_entry_color fg bg = ((bg <<< 4) ||| fg) ∧
    VGA_WIDTH = 80 ∧ VGA_HEIGHT = 25 ∧ SCREEN_CELLS = 2000 := by
  have key := vga_entry_eq_arith c a hc ha
  have key2 := vga_entry_color_eq_arith fg bg hfg hbg
  have key3 : ((bg <<< 4) ||| fg) = 16 * bg + fg := by
    have h4 : (2 : Nat) ^ 4 = 16 := by norm_num
    rw [shift_or_eq_add bg fg 4 (by omega), h4]
  refine ⟨?_, ?_, ?_, rfl, rfl, rfl⟩
  · rw [key]; omega
  · rw [key]; omega
  · rw [key2, key3]

/-- Witness for C5 at a concrete input: character 65 with attribute 7,
foreground 15 on background 0. -/
theorem C5_cell_layout_witness :
    (65 < 256 ∧ 7 < 256 ∧ 15 < 16 ∧ 0 < 16) ∧
    (vga_entry 65 7 % 256 = 65 ∧
     vga_entry 65 7 / 256 = 7 ∧
     vga_entry_color 15 0 = ((0 <<< 4) ||| 15) ∧
     VGA_WIDTH = 80 ∧ VGA_HEIGHT = 25 ∧ SCREEN_CELLS = 2000) :=
  ⟨⟨by decide, by decide, by decide, by decide⟩,
   C5_cell_layout 65 7 15 0 (by decide) (by decide) (by decide) (by decide)⟩

/-! ### Claim C6: write_string_at compositionality -/

/-- Claim C6: for every string and in-bounds coordinate,
`write_string_at(s, x, y)` yields the very same buffer state as
`set_pos(x, y)` followed by `write_string(s)` — in the code it is defined
as exactly that composition, so the states agree on grid, cursor and
attribute alike. -/
theorem C6_writestring_at_compositional (s : TermState) (str : List Nat) (x y : Nat)
    (hx : x < VGA_WIDTH) (hy : y < VGA_HEIGHT) :
    terminal_writestring_at s str x y
      = terminal_writestring (terminal_setpos s x y) str := rfl

/-- Witness for C6 at a concrete input: the string [72, 105] written at the
in-bounds coordinate (2, 3). -/
theorem C6_writestring_at_witness :
    (2 < VGA_WIDTH ∧ 3 < VGA_HEIGHT) ∧
    terminal_writestring_at ⟨0, 0, 7, []⟩ [72, 105] 2 3
      = terminal_writestring (terminal_setpos ⟨0, 0, 7, []⟩ 2 3) [72, 105] :=
  ⟨⟨by decide, by decide⟩,
   C6_writestring_at_compositional ⟨0, 0, 7, []⟩ [72, 105] 2 3 (by decide) (by decide)⟩

/-! ### Claim C7: key releases are discarded -/

/-- Claim C7: a scan-code byte with bit 7 (0x80) set is a key release and is
discarded with no further action: the whole terminal state (grid, cursor
and color attribute) is returned unchanged. -/
theorem C7_release_discarded (s : TermState) (hasData : Bool) (scancode : Nat)
    (h : scancode &&& 128 ≠ 0) :
    handle_keyboard s hasData scancode = s := by
  unfold handle_keyboard
  cases hasData with
  | false => rfl
  | true => simp [h]

/-- Witness for C7 at a concrete input: the release scan code 0x80 + 0x1E
(release of the key A). -/
theorem C7_release_discarded_witness :
    ((158 : Nat) &&& 128 ≠ 0) ∧ handle_keyboard ⟨0, 0, 7, []⟩ true 158 = ⟨0, 0, 7, []⟩ :=
  ⟨by decide, C7_release_discarded ⟨0, 0, 7, []⟩ true 158 (by decide)⟩

/-! ### Claim C8: put_char_at frame property -/

/-- Claim C8: for every in-bounds coordinate, character, attribute and
prior cursor state, `put_char_at` writes only the grid cell at `(x, y)`
(every other in-bounds cell keeps its value) and never changes the cursor
row, cursor column or current color. -/
theorem C8_putentryat_frame (s : TermState) (c color x y : Nat)
    (hx : x < VGA_WIDTH) (hy : y < VGA_HEIGHT)
    (hlen : s.terminal_buffer.length = SCREEN_CELLS) :
    (terminal_putentryat s c color x y).terminal_row = s.terminal_row ∧
    (terminal_putentryat s c color x y).terminal_column = s.terminal_column ∧
    (terminal_putentryat s c color x y).terminal_color = s.terminal_color ∧
    (terminal_putentryat s c color x y).terminal_buffer.getD (y * VGA_WIDTH + x) 0
      = vga_entry c color ∧
    (∀ x2 y2, x2 < VGA_WIDTH → y2 < VGA_HEIGHT → (x2 ≠ x ∨ y2 ≠ y) →
      (terminal_putentryat s c color x y).terminal_buffer.getD (y2 * VGA_WIDTH + x2) 0
        = s.terminal_buffer.getD (y2 * VGA_WIDTH + x2) 0) := by
  have hw : VGA_WIDTH = 80 := rfl
  have hh : VGA_HEIGHT = 25 := rfl
  have hsc : SCREEN_CELLS = 2000 := rfl
  rw [hw] at hx
  rw [hh] at hy
  refine ⟨rfl, rfl, rfl, ?_, ?_⟩
  · have hidx : y * VGA_WIDTH + x < s.terminal_buffer.length := by
      rw [hlen, hsc, hw]; omega
    show (s.terminal_buffer.set (y * VGA_WIDTH + x) (vga_entry c color)).getD
        (y * VGA_WIDTH + x) 0 = vga_entry c color
    rw [List.getD_eq_getElem?_getD, List.getElem?_set_self hidx]
    rfl
  · intro x2 y2 hx2 hy2 hne
    rw [hw] at hx2
    have hneq : y * VGA_WIDTH + x ≠ y2 * VGA_WIDTH + x2 := by
      rw [hw]; omega
    show (s.terminal_buffer.set (y * VGA_WIDTH + x) (vga_entry c color)).getD
        (y2 * VGA_WIDTH + x2) 0 = s.terminal_buffer.getD (y2 * VGA_WIDTH + x2) 0
    rw [List.getD_eq_getElem?_getD, List.getElem?_set_ne hneq,
      ← List.getD_eq_getElem?_getD]

/-- Witness for C8 at a concrete input: writing character 65 with attribute
7 at (3, 4) in a blank 2000-cell grid with the cursor at (5, 6). -/
theorem C8_putentryat_frame_witness :
    (3 < VGA_WIDTH ∧ 4 < VGA_HEIGHT ∧
     (List.replicate 2000 0 : List Nat).length = SCREEN_CELLS) ∧
    ((terminal_putentryat ⟨6, 5, 7, List.replicate 2000 0⟩ 65 7 3 4).terminal_row = 6 ∧
     (terminal_putentryat ⟨6, 5, 7, List.replicate 2000 0⟩ 65 7 3 4).terminal_column = 5 ∧
     (terminal_putentryat ⟨6, 5, 7, List.replicate 2000 0⟩ 65 7 3 4).terminal_color = 7 ∧
     (terminal_putentryat ⟨6, 5, 7, List.replicate 2000 0⟩ 65 7 3 4).terminal_buffer.getD
        (4 * VGA_WIDTH + 3) 0 = vga_entry 65 7 ∧
     (∀ x2 y2, x2 < VGA_WIDTH → y2 < VGA_HEIGHT → (x2 ≠ 3 ∨ y2 ≠ 4) →
       (terminal_putentryat ⟨6, 5, 7, List.replicate 2000 0⟩ 65 7 3 4).terminal_buffer.getD
          (y2 * VGA_WIDTH + x2) 0
         = (⟨6, 5, 7, List.replicate 2000 0⟩ : TermState).terminal_buffer.getD
            (y2 * VGA_WIDTH + x2) 0)) :=
  ⟨⟨by decide, by decide, by rw [List.length_replicate]; rfl⟩,
   C8_putentryat_frame ⟨6, 5, 7, List.replicate 2000 0⟩ 65 7 3 4 (by decide) (by decide)
     (by rw [List.length_replicate]; rfl)⟩

/-! ### Claim C9: put_char is literal, no control-character handling -/

/-- Claim C9: `put_char` gives no special treatment to any character,
newline included: it stores the byte as a literal cell at the cursor under
the current attribute, the cursor advances by exactly one position in
row-major circular order, and the cursor movement is the same whatever the
character was. -/
theorem C9_putchar_literal (s : TermState) (c : Nat)
    (hc : s.terminal_column < VGA_WIDTH) (hr : s.terminal_row < VGA_HEIGHT)
    (hlen : s.terminal_buffer.length = SCREEN_CELLS) :
    (terminal_putchar s c).terminal_buffer.getD
        (s.terminal_row * VGA_WIDTH + s.terminal_column) 0
      = vga_entry c s.terminal_color ∧
    (terminal_putchar s c).terminal_row * VGA_WIDTH + (terminal_putchar s c).terminal_column
      = (s.terminal_row * VGA_WIDTH + s.terminal_column + 1) % SCREEN_CELLS ∧
    (∀ c2, (terminal_putchar s c2).terminal_row = (terminal_putchar s c).terminal_row ∧
      (terminal_putchar s c2).terminal_column = (terminal_putchar s c).terminal_column) := by
  have hw : VGA_WIDTH = 80 := rfl
  have hh : VGA_HEIGHT = 25 := rfl
  have hsc : SCREEN_CELLS = 2000 := rfl
  rw [hw] at hc
  rw [hh] at hr
  refine ⟨?_, ?_, ?_⟩
  · rw [putchar_buffer_eq]
    have hidx : s.terminal_row * VGA_WIDTH + s.terminal_column < s.terminal_buffer.length := by
      rw [hlen, hsc, hw]; omega
    rw [List.getD_eq_getElem?_getD, List.getElem?_set_self hidx]
    rfl
  · obtain ⟨_, _, h3⟩ := putchar_idx s c hc hr
    rw [hw, hsc]
    exact h3
  · intro c2
    rw [putchar_row_eq, putchar_row_eq, putchar_column_eq, putchar_column_eq]
    exact ⟨rfl, rfl⟩

/-- Witness for C9 at a concrete input: the newline byte 10 written at
cursor (0,0) of a blank grid (this is what the trailing newline of the boot
message exercises): the newline lands as a literal cell and the cursor
moves to column 1 of the same row. -/
theorem C9_putchar_literal_witness :
    (0 < VGA_WIDTH ∧ 0 < VGA_HEIGHT ∧
     (List.replicate 2000 0 : List Nat).length = SCREEN_CELLS) ∧
    ((terminal_putchar ⟨0, 0, 7, List.replicate 2000 0⟩ 10).terminal_buffer.getD
        (0 * VGA_WIDTH + 0) 0 = vga_entry 10 7 ∧
     (terminal_putchar ⟨0, 0, 7, List.replicate 2000 0⟩ 10).terminal_row * VGA_WIDTH +
       (terminal_putchar ⟨0, 0, 7, List.replicate 2000 0⟩ 10).terminal_column
       = (0 * VGA_WIDTH + 0 + 1) % SCREEN_CELLS ∧
     (∀ c2, (terminal_putchar ⟨0, 0, 7, List.replicate 2000 0⟩ c2).terminal_row
          = (terminal_putchar ⟨0, 0, 7, List.replicate 2000 0⟩ 10).terminal_row ∧
        (terminal_putchar ⟨0, 0, 7, List.replicate 2000 0⟩ c2).terminal_column
          = (terminal_putchar ⟨0, 0, 7, List.replicate 2000 0⟩ 10).terminal_column)) :=
  ⟨⟨by decide, by decide, by rw [List.length_replicate]; rfl⟩,
   C9_putchar_literal ⟨0, 0, 7, List.replicate 2000 0⟩ 10 (by decide) (by decide)
     (by rw [List.length_replicate]; rfl)⟩

/-! ### Claim C10: terminal_write is count-delimited, not NUL-delimited -/

theorem range_foldl_eq_take_foldl (data : List Nat) (size : Nat) (s : TermState)
    (h : size ≤ data.length) :
    (List.range size).foldl (fun st i => terminal_putchar st (data.getD i 0)) s
      = (data.take size).foldl terminal_putchar s := by
  induction size with
  | zero => rfl
  | succ n ih =>
    have hn : n < data.length := by omega
    rw [List.range_succ, List.foldl_append, ih (by omega), List.take_succ,
      List.foldl_append, List.getElem?_eq_getElem hn]
    simp only [Option.toList_some, List.foldl_cons, List.foldl_nil]
    congr 1
    rw [List.getD_eq_getElem?_getD, List.getElem?_eq_getElem hn]
    rfl

theorem strlen_le_length (l : List Nat) : strlen l ≤ l.length := by
  unfold strlen
  induction l with
  | nil => exact Nat.le_refl 0
  | cons a t ih =>
    rw [List.takeWhile_cons]
    by_cases ha : a = 0
    · rw [if_neg (by simp [ha])]
      exact Nat.zero_le _
    · rw [if_pos (by simp [ha])]
      simp only [List.length_cons]
      omega

theorem take_strlen_eq (l : List Nat) :
    l.take (strlen l) = l.takeWhile (fun b => b ≠ 0) := by
  unfold strlen
  induction l with
  | nil => rfl
  | cons a t ih =>
    rw [List.takeWhile_cons]
    by_cases ha : a = 0
    · rw [if_neg (by simp [ha])]
      rfl
    · rw [if_pos (by simp [ha])]
      simp only [List.length_cons, List.take_succ_cons]
      rw [ih]

/-- Claim C10: `terminal_write(data, size)` applies `put_char` to exactly
the first `size` bytes of `data` in order, whatever their values (a NUL
byte is written like any other), while `terminal_writestring` is
terminator-delimited: it writes exactly the bytes before the first NUL. -/
theorem C10_write_count_delimited (s : TermState) (data : List Nat) (size : Nat)
    (h : size ≤ data.length) :
    terminal_write s data size = (data.take size).foldl terminal_putchar s ∧
    terminal_writestring s data
      = (data.takeWhile (fun b => b ≠ 0)).foldl terminal_putchar s := by
  constructor
  · exact range_foldl_eq_take_foldl data size s h
  · show (List.range (strlen data)).foldl _ s = _
    rw [range_foldl_eq_take_foldl data (strlen data) s (strlen_le_length data),
      take_strlen_eq]

/-- Witness for C10 at a concrete input: `data = [0, 5, 9]` (beginning with
a NUL byte) with `size = 2`: `terminal_write` pushes both bytes 0 and 5
through `put_char`, while `terminal_writestring` on the same data writes
nothing. -/
theorem C10_write_count_delimited_witness :
    (2 ≤ ([0, 5, 9] : List Nat).length) ∧
    (terminal_write ⟨0, 0, 7, []⟩ [0, 5, 9] 2
        = (([0, 5, 9] : List Nat).take 2).foldl terminal_putchar ⟨0, 0, 7, []⟩ ∧
     terminal_writestring ⟨0, 0, 7, []⟩ [0, 5, 9]
        = (([0, 5, 9] : List Nat).takeWhile (fun b => b ≠ 0)).foldl
            terminal_putchar ⟨0, 0, 7, []⟩) :=
  ⟨by decide, C10_write_count_delimited ⟨0, 0, 7, []⟩ [0, 5, 9] 2 (by decide)⟩

/-! ### Claim C1: scan-code filtering of sentinel entries -/

/-- Claim C1 fails on the code: `handle_keyboard` forwards
`keyboard_map[scancode]` to `terminal_putchar` with no sentinel check, so a
press of scan code 59 (F1, table entry -1 stored as 255) and of scan code
29 (Control, table entry 0) each write the sentinel value as a literal cell
at the cursor and advance the cursor — contradicting the documented design
decision that sentinel entries never reach the display path. -/
theorem C1_sentinel_reaches_display :
    keyboard_map.getD 59 0 = 255 ∧
    keyboard_map.getD 29 0 = 0 ∧
    (handle_keyboard ⟨0, 0, 7, [0, 0, 0, 0]⟩ true 59).terminal_column = 1 ∧
    (handle_keyboard ⟨0, 0, 7, [0, 0, 0, 0]⟩ true 59).terminal_buffer
      = [vga_entry 255 7, 0, 0, 0] ∧
    (handle_keyboard ⟨0, 0, 7, [0, 0, 0, 0]⟩ true 29).terminal_column = 1 ∧
    (handle_keyboard ⟨0, 0, 7, [0, 0, 0, 0]⟩ true 29).terminal_buffer
      = [vga_entry 0 7, 0, 0, 0] := by decide

/-! ### Claim C2: tab round trip (Tab Manager modelled from the spec) -/

/-- Claim C2: for distinct in-range tab indices `A` and `B`, the sequence
`switch_to(A); write X; switch_to(B); write Y; switch_to(A)` leaves the
Video Sink byte-for-byte equal to buffer `A`'s grid as it was after
writing `X`, independent of `Y`; switching away does not touch buffer `A`'s
grid, and neither does writing to buffer `B`. -/
theorem C2_tab_round_trip (ts0 : TabState) (A B : Nat) (X Y : List Nat)
    (hA : A < TAB_COUNT) (hB : B < TAB_COUNT) (hAB : A ≠ B)
    (hlen : ts0.tabs.length = TAB_COUNT) :
    (switch_to (tabs_write (switch_to (tabs_write (switch_to ts0 A) X) B) Y) A).sink
      = ((tabs_write (switch_to ts0 A) X).tabs.getD A default).terminal_buffer ∧
    (switch_to (tabs_write (switch_to ts0 A) X) B).tabs
      = (tabs_write (switch_to ts0 A) X).tabs ∧
    (tabs_write (switch_to (tabs_write (switch_to ts0 A) X) B) Y).tabs.getD A default
      = (tabs_write (switch_to ts0 A) X).tabs.getD A default := by
  have hAlen : A < ts0.tabs.length := by rw [hlen]; exact hA
  have h2tabs : (tabs_write (switch_to ts0 A) X).tabs
      = ts0.tabs.set A (X.foldl terminal_putchar (ts0.tabs.getD A default)) := rfl
  have h4getD : (tabs_write (switch_to (tabs_write (switch_to ts0 A) X) B) Y).tabs.getD A default
      = (tabs_write (switch_to ts0 A) X).tabs.getD A default := by
    show ((tabs_write (switch_to ts0 A) X).tabs.set B
        (Y.foldl terminal_putchar
          ((tabs_write (switch_to ts0 A) X).tabs.getD B default))).getD A default
      = (tabs_write (switch_to ts0 A) X).tabs.getD A default
    rw [List.getD_eq_getElem?_getD, List.getElem?_set_ne (Ne.symm hAB),
      ← List.getD_eq_getElem?_getD]
  refine ⟨?_, rfl, h4getD⟩
  show ((tabs_write (switch_to (tabs_write (switch_to ts0 A) X) B) Y).tabs.getD
      A default).terminal_buffer
    = ((tabs_write (switch_to ts0 A) X).tabs.getD A default).terminal_buffer
  rw [h4getD]

/-- Witness for C2 at a concrete input: nine blank tabs, tab 0 receives the
byte 72, tab 1 the byte 66. -/
theorem C2_tab_round_trip_witness :
    (0 < TAB_COUNT ∧ 1 < TAB_COUNT ∧ (0 : Nat) ≠ 1 ∧
     (TabState.mk (List.replicate 9 ⟨0, 0, 7, []⟩) 0 []).tabs.length = TAB_COUNT) ∧
    ((switch_to (tabs_write (switch_to (tabs_write (switch_to
          (TabState.mk (List.replicate 9 ⟨0, 0, 7, []⟩) 0 []) 0) [72]) 1) [66]) 0).sink
      = ((tabs_write (switch_to (TabState.mk (List.replicate 9 ⟨0, 0, 7, []⟩) 0 []) 0)
          [72]).tabs.getD 0 default).terminal_buffer ∧
     (switch_to (tabs_write (switch_to
          (TabState.mk (List.replicate 9 ⟨0, 0, 7, []⟩) 0 []) 0) [72]) 1).tabs
      = (tabs_write (switch_to (TabState.mk (List.replicate 9 ⟨0, 0, 7, []⟩) 0 []) 0)
          [72]).tabs ∧
     (tabs_write (switch_to (tabs_write (switch_to
          (TabState.mk (List.replicate 9 ⟨0, 0, 7, []⟩) 0 []) 0) [72]) 1) [66]).tabs.getD
          0 default
      = (tabs_write (switch_to (TabState.mk (List.replicate 9 ⟨0, 0, 7, []⟩) 0 []) 0)
          [72]).tabs.getD 0 default) :=
  ⟨⟨by decide, by decide, by decide, by rw [List.length_replicate]; rfl⟩,
   C2_tab_round_trip (TabState.mk (List.replicate 9 ⟨0, 0, 7, []⟩) 0 []) 0 1 [72] [66]
     (by decide) (by decide) (by decide) (by rw [List.length_replicate]; rfl)⟩
